import Mathlib

/-!
Verification of the real-time translation backend: a shallow embedding of the
translation cache, rate limiter, token rotation guard, streaming pipeline,
translation service and connection registry, together with theorems settling
the specification claims about them.

Embedding conventions:
* Python strings are Lean `String`; bytes are `List Nat` (each < 256).
* Redis is modelled as an explicit association-list state; a TTL argument is
  stored but no passage of time is modelled (claims are about behaviour
  before expiry).
* Awaited external collaborators (speech, LLM and TTS providers) are supplied
  as environment oracles returning `Except Unit` values; a raised exception is
  the `.error` case.
* Every operation that touches a collaborator records an `Eff` event, so the
  theorems can speak about which calls were or were not made and in what order.
-/

set_option maxRecDepth 10000

/-- Association-list lookup keyed by `String`, mirroring Python `dict.get`. -/
def lookupA {α : Type} (l : List (String × α)) (k : String) : Option α :=
  (l.find? (fun e => e.1 == k)).map (fun e => e.2)

/-- Association-list update mirroring Python `dict.__setitem__`: replaces the
value in place when the key is present, otherwise appends (insertion order). -/
def setA {α : Type} (l : List (String × α)) (k : String) (v : α) : List (String × α) :=
  if (l.find? (fun e => e.1 == k)).isSome then
    l.map (fun e => if e.1 == k then (k, v) else e)
  else l ++ [(k, v)]

/-- Association-list deletion mirroring Python `del d[k]`. -/
def delA {α : Type} (l : List (String × α)) (k : String) : List (String × α) :=
  l.filter (fun e => !(e.1 == k))

/-- The ASCII whitespace characters removed by Python `str.strip()`
(space, tab, newline, carriage return, vertical tab, form feed). -/
def pyIsSpace (c : Char) : Bool :=
  c == ' ' || c == Char.ofNat 9 || c == Char.ofNat 10 || c == Char.ofNat 13 ||
  c == Char.ofNat 11 || c == Char.ofNat 12

/-- Python `str.strip()` with no argument: drop leading and trailing whitespace. -/
def pyStrip (s : String) : String :=
  String.mk (((s.data.dropWhile pyIsSpace).reverse.dropWhile pyIsSpace).reverse)

/-- Python `str.lower()` restricted to ASCII letters (all inputs in the claims
are ASCII; non-ASCII case mapping is not needed by any claim). -/
def pyLower (s : String) : String :=
  String.mk (s.data.map Char.toLower)

/-- UTF-8 encoding of one code point, as Python `str.encode()` produces. -/
def utf8EncodeChar (c : Char) : List Nat :=
  let n := c.toNat
  if n < 128 then [n]
  else if n < 2048 then [192 + n / 64, 128 + n % 64]
  else if n < 65536 then [224 + n / 4096, 128 + (n / 64) % 64, 128 + n % 64]
  else [240 + n / 262144, 128 + (n / 4096) % 64, 128 + (n / 64) % 64, 128 + n % 64]

/-- UTF-8 encoding of a string (Python `str.encode()`). -/
def utf8Bytes (s : String) : List Nat :=
  s.data.foldr (fun c acc => utf8EncodeChar c ++ acc) []

/-! ### MD5 (RFC 1321), as used by `hashlib.md5(...).hexdigest()` -/

/-- 32-bit left rotation on `Nat` values kept below `2 ^ 32`. -/
def rotl32 (x s : Nat) : Nat :=
  ((x <<< s) ||| (x >>> (32 - s))) % 4294967296

/-- The 64 MD5 sine-derived round constants. -/
def md5K : List Nat :=
  [0xd76aa478, 0xe8c7b756, 0x242070db, 0xc1bdceee,
   0xf57c0faf, 0x4787c62a, 0xa8304613, 0xfd469501,
   0x698098d8, 0x8b44f7af, 0xffff5bb1, 0x895cd7be,
   0x6b901122, 0xfd987193, 0xa679438e, 0x49b40821,
   0xf61e2562, 0xc040b340, 0x265e5a51, 0xe9b6c7aa,
   0xd62f105d, 0x02441453, 0xd8a1e681, 0xe7d3fbc8,
   0x21e1cde6, 0xc33707d6, 0xf4d50d87, 0x455a14ed,
   0xa9e3e905, 0xfcefa3f8, 0x676f02d9, 0x8d2a4c8a,
   0xfffa3942, 0x8771f681, 0x6d9d6122, 0xfde5380c,
   0xa4beea44, 0x4bdecfa9, 0xf6bb4b60, 0xbebfbc70,
   0x289b7ec6, 0xeaa127fa, 0xd4ef3085, 0x04881d05,
   0xd9d4d039, 0xe6db99e5, 0x1fa27cf8, 0xc4ac5665,
   0xf4292244, 0x432aff97, 0xab9423a7, 0xfc93a039,
   0x655b59c3, 0x8f0ccc92, 0xffeff47d, 0x85845dd1,
   0x6fa87e4f, 0xfe2ce6e0, 0xa3014314, 0x4e0811a1,
   0xf7537e82, 0xbd3af235, 0x2ad7d2bb, 0xeb86d391]

/-- The 64 MD5 per-round left-rotation amounts. -/
def md5S : List Nat :=
  [7, 12, 17, 22, 7, 12, 17, 22, 7, 12, 17, 22, 7, 12, 17, 22,
   5, 9, 14, 20, 5, 9, 14, 20, 5, 9, 14, 20, 5, 9, 14, 20,
   4, 11, 16, 23, 4, 11, 16, 23, 4, 11, 16, 23, 4, 11, 16, 23,
   6, 10, 15, 21, 6, 10, 15, 21, 6, 10, 15, 21, 6, 10, 15, 21]

/-- Running MD5 state: four 32-bit words. -/
structure Md5State where
  a : Nat
  b : Nat
  c : Nat
  d : Nat
deriving DecidableEq

/-- One of the 64 MD5 rounds; `M` fetches the message word of the block. -/
def md5Step (M : Nat → Nat) (st : Md5State) (i : Nat) : Md5State :=
  let fg : Nat × Nat :=
    if i < 16 then ((st.b &&& st.c) ||| ((st.b ^^^ 4294967295) &&& st.d), i)
    else if i < 32 then ((st.d &&& st.b) ||| ((st.d ^^^ 4294967295) &&& st.c), (5 * i + 1) % 16)
    else if i < 48 then (st.b ^^^ st.c ^^^ st.d, (3 * i + 5) % 16)
    else (st.c ^^^ (st.b ||| (st.d ^^^ 4294967295)), (7 * i) % 16)
  let f := (fg.1 + st.a + md5K.getD i 0 + M fg.2) % 4294967296
  { a := st.d, d := st.c, c := st.b,
    b := (st.b + rotl32 f (md5S.getD i 0)) % 4294967296 }

/-- Message word `j` of a 64-byte block, little-endian. -/
def md5Word (block : List Nat) (j : Nat) : Nat :=
  block.getD (4 * j) 0 + 256 * block.getD (4 * j + 1) 0 +
  65536 * block.getD (4 * j + 2) 0 + 16777216 * block.getD (4 * j + 3) 0

/-- Process one 64-byte block. -/
def md5Block (h : Md5State) (block : List Nat) : Md5State :=
  let st := (List.range 64).foldl (md5Step (md5Word block)) h
  { a := (h.a + st.a) % 4294967296, b := (h.b + st.b) % 4294967296,
    c := (h.c + st.c) % 4294967296, d := (h.d + st.d) % 4294967296 }

/-- Split a byte list into 64-byte chunks (fuel-driven so the definition
reduces inside the kernel; the fuel `n` is always at least the list length). -/
def md5ChunksAux : Nat → List Nat → List (List Nat)
  | 0, _ => []
  | _, [] => []
  | n + 1, b :: rest => (b :: rest).take 64 :: md5ChunksAux n ((b :: rest).drop 64)

/-- Split a byte list into 64-byte chunks. -/
def md5Chunks (l : List Nat) : List (List Nat) :=
  md5ChunksAux l.length l

/-- `k` little-endian bytes of `n`. -/
def leBytes : Nat → Nat → List Nat
  | 0, _ => []
  | k + 1, n => n % 256 :: leBytes k (n / 256)

/-- MD5 padding: append `0x80`, zero bytes to 56 mod 64, then the 64-bit
little-endian bit length. -/
def md5Pad (msg : List Nat) : List Nat :=
  let len := msg.length
  msg ++ 128 :: List.replicate ((119 - len % 64) % 64) 0 ++
    leBytes 8 ((len * 8) % 18446744073709551616)

/-- Lowercase hexadecimal digit. -/
def hexChar (n : Nat) : Char :=
  if n < 10 then Char.ofNat (48 + n) else Char.ofNat (87 + n)

/-- Lowercase hex string of a byte list. -/
def bytesToHex (bs : List Nat) : String :=
  String.mk (bs.foldr (fun b acc => hexChar (b / 16) :: hexChar (b % 16) :: acc) [])

/-- The 16 MD5 digest bytes of a byte message. -/
def md5Bytes (msg : List Nat) : List Nat :=
  let h := (md5Chunks (md5Pad msg)).foldl md5Block
    ⟨1732584193, 4023233417, 2562383102, 271733878⟩
  leBytes 4 h.a ++ leBytes 4 h.b ++ leBytes 4 h.c ++ leBytes 4 h.d

/-- `hashlib.md5(msg).hexdigest()`. -/
def md5Hexdigest (msg : List Nat) : String :=
  bytesToHex (md5Bytes msg)

/-! ### RedisService (`app/services/redis_service.py`)

`RedisState` is the content of the connected store: translation/value entries
(with their TTL, not counted down) and the `metric:` counters.  An unavailable
store is represented at use sites by `Option RedisState` being `none` (every
operation on it raises). -/

structure RedisState where
  entries : List (String × String × Nat) := []
  counters : List (String × Nat) := []
deriving DecidableEq

/-- `RedisService.get`. -/
def redisGet (st : RedisState) (key : String) : Option String :=
  (st.entries.find? (fun e => e.1 == key)).map (fun e => e.2.1)

/-- `RedisService.set` with `expire_seconds` given (redis `SETEX`): overwrite,
recording the TTL. -/
def redisSetex (st : RedisState) (key : String) (expire_seconds : Nat) (value : String) :
    RedisState :=
  { st with entries := (key, value, expire_seconds) :: st.entries.filter (fun e => !(e.1 == key)) }

/-- `RedisService._translation_key`: hash of the trimmed, lowercased text,
qualified by the language pair. -/
def translation_key (source_lang target_lang text : String) : String :=
  "trans:" ++ source_lang ++ ":" ++ target_lang ++ ":" ++
    md5Hexdigest (utf8Bytes (pyLower (pyStrip text)))

/-- `RedisService.get_translation`. -/
def get_translation (st : RedisState) (text source_lang target_lang : String) : Option String :=
  redisGet st (translation_key source_lang target_lang text)

/-- `RedisService.set_translation` (code default `expire_seconds = 86400`). -/
def set_translation (st : RedisState) (text source_lang target_lang translated : String)
    (expire_seconds : Nat) : RedisState :=
  redisSetex st (translation_key source_lang target_lang text) expire_seconds translated

/-- `RedisService.increment_counter` (redis `INCR` on a `metric:` key: a
missing counter is treated as `0`). -/
def increment_counter (st : RedisState) (key : String) : Nat × RedisState :=
  let cur := (lookupA st.counters ("metric:" ++ key)).getD 0
  (cur + 1, { st with counters := setA st.counters ("metric:" ++ key) (cur + 1) })

/-- The fixed-window counter of one rate-limit key: `(count, ttl)` when the
counter exists. -/
structure RateState where
  counter : Option (Nat × Nat) := none
deriving DecidableEq

/-- `RedisService.check_rate_limit` for one key: first request creates the
counter with TTL = window and returns `limit - 1` remaining; a count at or
above the limit rejects with `0` remaining; otherwise `INCR` (which keeps the
TTL) and report what is left. -/
def check_rate_limit (st : RateState) (limit : Nat) (window_seconds : Nat) :
    (Bool × Int) × RateState :=
  match st.counter with
  | none => ((true, (limit : Int) - 1), { counter := some (1, window_seconds) })
  | some (count, ttl) =>
      if count ≥ limit then ((false, 0), st)
      else ((true, (limit : Int) - count - 1), { counter := some (count + 1, ttl) })

/-- `n` successive `check_rate_limit` calls on the same key with no
intervening TTL expiry, collecting the `(allowed, remaining)` results. -/
def rateLimitRun (st : RateState) (limit window : Nat) : Nat → List (Bool × Int) × RateState
  | 0 => ([], st)
  | n + 1 =>
      let r := check_rate_limit st limit window
      let rest := rateLimitRun r.2 limit window n
      (r.1 :: rest.1, rest.2)

/-! ### RateLimitMiddleware (`app/middleware/rate_limit.py`) -/

/-- The `RATE_LIMITS` table, in source (dict insertion) order. -/
def RATE_LIMITS : List (String × Nat × Nat) :=
  [("/api/calls/start", (10, 60)),
   ("/api/voice/clone", (5, 3600)),
   ("/api/chats/dm", (30, 60)),
   ("/api/chats/group", (10, 60)),
   ("/api/friends/request", (20, 60)),
   ("/api/auth/signup", (5, 3600)),
   ("/api/auth/login", (30, 60))]

/-- `DEFAULT_LIMIT`. -/
def DEFAULT_LIMIT : Nat × Nat := (200, 60)

/-- Python `str.startswith`, structurally (kernel-reducible, unlike
`String.startsWith`). -/
def pyStartswith (s pre : String) : Bool :=
  pre.data.isPrefixOf s.data

/-- The paths the middleware skips before any rate-limit logic. -/
def skipPaths : List String := ["/health", "/docs", "/openapi.json", "/redoc"]

/-- The request fields the middleware reads. -/
structure MwRequest where
  path : String
  authorization : String := ""
  clientHost : Option String := none
deriving DecidableEq

/-- The backing store as seen through the rate key of one request: `down`
means every redis operation raises. -/
inductive MwStore
  | down
  | up (st : RateState)
deriving DecidableEq

/-- What `RateLimitMiddleware.dispatch` did with the request: `next h` means
`call_next` ran and the response was returned (with `X-RateLimit` headers
`(limit, remaining)` when they were set); `rateLimited` is the 429 response
carrying its `Retry-After = window`. -/
inductive DispatchResult
  | next (rateHeaders : Option (Nat × Int))
  | rateLimited (limit window : Nat)
deriving DecidableEq

/-- `RateLimitMiddleware.dispatch`.  A raising store is caught by the
`except Exception` handler, which lets the request through (fail-open). -/
def dispatch (req : MwRequest) (store : MwStore) : DispatchResult × MwStore :=
  if req.path ∈ skipPaths then (.next none, store)
  else if !(pyStartswith req.path "/api") then (.next none, store)
  else
    let identifier :=
      if pyStartswith req.authorization "Bearer " then
        (md5Hexdigest (utf8Bytes req.authorization)).take 16
      else (req.clientHost).getD "unknown"
    let lw := ((RATE_LIMITS.find? (fun e => pyStartswith req.path e.1)).map
      (fun e => e.2)).getD DEFAULT_LIMIT
    match store with
    | .down => (.next none, store)
    | .up st =>
        let r := check_rate_limit st lw.1 lw.2
        if r.1.1 then (.next (some (lw.1, r.1.2)), .up r.2)
        else (.rateLimited lw.1 lw.2, .up r.2)

/-! ### TranslationService (`app/services/translation_service.py`) -/

/-- `SUPPORTED_LANGUAGES`: code to display name. -/
def SUPPORTED_LANGUAGES : List (String × String) :=
  [("en", "English"), ("th", "Thai"), ("es", "Spanish"), ("fr", "French"),
   ("de", "German"), ("ja", "Japanese"), ("ko", "Korean"), ("zh", "Chinese (Mandarin)"),
   ("ar", "Arabic"), ("pt", "Portuguese"), ("ru", "Russian"), ("hi", "Hindi"),
   ("vi", "Vietnamese"), ("it", "Italian"), ("nl", "Dutch"), ("tr", "Turkish"),
   ("pl", "Polish"), ("sv", "Swedish"), ("id", "Indonesian"), ("ms", "Malay")]

/-- `_build_system_prompt`: context-aware system prompt; unknown language
codes pass through unmodified. -/
def build_system_prompt (source_language target_language persona industry : String)
    (glossary : List (String × String)) : String :=
  let src_name := (lookupA SUPPORTED_LANGUAGES source_language).getD source_language
  let tgt_name := (lookupA SUPPORTED_LANGUAGES target_language).getD target_language
  let prompt := "You are a real-time voice translator. Translate spoken " ++ src_name ++
    " to " ++ tgt_name ++ ".\n\nRULES:\n- Preserve the speaker\x27s tone, emotion, and intent\n- Keep it natural — this will be spoken aloud via TTS\n- Do NOT add explanations, notes, or commentary\n- Preserve idioms by finding equivalent expressions in the target language\n- Keep proper nouns unchanged\n- Output ONLY the translated text, nothing else"
  let prompt := if persona ≠ "" then prompt ++ "\n\nSPEAKER CONTEXT: " ++ persona else prompt
  let prompt := if industry ≠ "" then
      prompt ++ "\nINDUSTRY: " ++ industry ++ " — use appropriate terminology"
    else prompt
  if glossary ≠ [] then
    prompt ++ "\n\nCUSTOM GLOSSARY:\n" ++
      String.intercalate "\n" (glossary.map (fun kv => "  " ++ kv.1 ++ " → " ++ kv.2))
  else prompt

/-- One observable interaction with a collaborator (redis or a provider). -/
inductive Eff
  | cacheRead (key : String) (result : Option String)
  | cacheWrite (key : String) (value : String)
  | counterIncr (name : String)
  | callOpenAI (system_prompt : String) (text : String)
  | callClaude (system_prompt : String) (text : String)
  | callOpenAIStream (system_prompt : String) (text : String)
  | sttCall
  | ttsStreamCall (text : String)
deriving DecidableEq

/-- The external LLM providers: result of a call, or `.error` for a raised
provider exception. -/
structure ProviderEnv where
  openai : String → String → Except Unit String
  claude : String → String → Except Unit String
  openaiStream : String → String → Except Unit (List String)

/-- The cache-read phase of `TranslationService.translate` (lines 85-95):
attempted only when `use_cache`; a raising (absent) redis is swallowed by the
`except` and treated as a miss; a cached empty string is falsy in Python and
falls through to the providers. -/
def cacheReadPhase (use_cache : Bool) (redis : Option RedisState) (text src tgt : String) :
    Option String × Option RedisState × List Eff :=
  if use_cache then
    match redis with
    | none => (none, none, [])
    | some st =>
        let key := translation_key src tgt text
        match redisGet st key with
        | some c =>
            if c = "" then (none, some st, [.cacheRead key (some c)])
            else (some c, some (increment_counter st "translation_cache_hits").2,
              [.cacheRead key (some c), .counterIncr "translation_cache_hits"])
        | none => (none, some st, [.cacheRead key none])
  else (none, redis, [])

/-- The provider phase of `TranslationService.translate` (lines 101-108):
Claude directly when `use_claude`, otherwise OpenAI with automatic fallback to
Claude; a failure of the last provider tried propagates. -/
def providerPhase (env : ProviderEnv) (system_prompt text : String) (use_claude : Bool) :
    Except Unit String × List Eff :=
  if use_claude then
    match env.claude system_prompt text with
    | .ok s => (.ok s, [.callClaude system_prompt text])
    | .error _ => (.error (), [.callClaude system_prompt text])
  else
    match env.openai system_prompt text with
    | .ok s => (.ok s, [.callOpenAI system_prompt text])
    | .error _ =>
        match env.claude system_prompt text with
        | .ok s => (.ok s, [.callOpenAI system_prompt text, .callClaude system_prompt text])
        | .error _ => (.error (), [.callOpenAI system_prompt text, .callClaude system_prompt text])

/-- The cache-store phase of `TranslationService.translate` (lines 110-118):
ran only when `use_cache` and the result is truthy; a raising redis is
swallowed. -/
def storePhase (use_cache : Bool) (redis : Option RedisState) (text src tgt result : String)
    (effs : List Eff) : Except Unit String × Option RedisState × List Eff :=
  if use_cache && !(result == "") then
    match redis with
    | none => (.ok result, none, effs)
    | some st =>
        let st1 := set_translation st text src tgt result 86400
        (.ok result, some (increment_counter st1 "translation_cache_misses").2,
         effs ++ [.cacheWrite (translation_key src tgt text) result,
                  .counterIncr "translation_cache_misses"])
  else (.ok result, redis, effs)

/-- `TranslationService.translate`.  Returns the translation (or the raised
exception), the redis store after the call, and the effect trace.
`use_cache = not persona and not industry and not glossary` with Python
truthiness of strings and dicts. -/
def TranslationService.translate (env : ProviderEnv) (redis : Option RedisState)
    (text source_language target_language persona industry : String)
    (glossary : List (String × String)) (use_claude : Bool) :
    Except Unit String × Option RedisState × List Eff :=
  if source_language = target_language then (.ok text, redis, [])
  else
    match cacheReadPhase ((persona == "") && ((industry == "") && glossary.isEmpty))
        redis text source_language target_language with
    | (some c, r1, e1) => (.ok c, r1, e1)
    | (none, r1, e1) =>
        match providerPhase env
            (build_system_prompt source_language target_language persona industry glossary)
            text use_claude with
        | (.error _, e2) => (.error (), r1, e1 ++ e2)
        | (.ok result, e2) =>
            storePhase ((persona == "") && ((industry == "") && glossary.isEmpty))
              r1 text source_language target_language result (e1 ++ e2)

/-- `TranslationService.translate_stream`: builds the system prompt and calls
the streaming OpenAI endpoint directly; the yielded deltas are the truthy
(non-empty) chunk contents.  No redis state is consulted or touched: the
function does not take the cache at all, exactly as in the source. -/
def translate_stream (env : ProviderEnv)
    (text source_language target_language persona industry : String)
    (glossary : List (String × String)) : Except Unit (List String) × List Eff :=
  let system_prompt := build_system_prompt source_language target_language persona industry glossary
  ((env.openaiStream system_prompt text).map (fun ds => ds.filter (fun d => !(d == ""))),
   [.callOpenAIStream system_prompt text])

/-! ### TranslationPipeline (`app/services/pipeline.py`) -/

/-- `TranslationContext` with its dataclass defaults. -/
structure TranslationContext where
  user_id : String := ""
  source_language : String := "auto"
  target_language : String := "en"
  persona : String := ""
  industry : String := ""
  custom_glossary : List (String × String) := []
deriving DecidableEq

/-- One item yielded by the streaming pipeline.  The latency payload of the
`metrics` item is wall-clock data and is not modelled. -/
inductive StreamItem
  | transcript (s : String)
  | text (s : String)
  | audio (chunk : String)
  | metrics
deriving DecidableEq

/-- `TranslationPipeline.process_audio_streaming`.  `stt` is the transcription
the speech provider returns for this chunk and `tts` the audio chunks the
synthesis provider streams back (audio bytes are opaque strings); a `.error`
is a raised provider exception, which propagates out of the generator.
Returns the finite sequence of yielded items and the effect trace. -/
def process_audio_streaming (env : ProviderEnv) (stt : Except Unit String)
    (tts : Except Unit (List String)) (context : TranslationContext)
    (voice_id : Option String) : Except Unit (List StreamItem) × List Eff :=
  match stt with
  | .error _ => (.error (), [.sttCall])
  | .ok transcript =>
      if pyStrip transcript = "" then (.ok [], [.sttCall])
      else
        let ts := translate_stream env transcript context.source_language
          context.target_language context.persona context.industry context.custom_glossary
        match ts.1 with
        | .error _ => (.error (), .sttCall :: ts.2)
        | .ok deltas =>
            let full_translation := String.join deltas
            match tts with
            | .error _ => (.error (), .sttCall :: ts.2 ++ [.ttsStreamCall full_translation])
            | .ok chunks =>
                (.ok (StreamItem.transcript transcript :: deltas.map .text ++
                  chunks.map .audio ++ [.metrics]),
                 .sttCall :: ts.2 ++ [.ttsStreamCall full_translation])

/-! ### ConnectionManager (`app/routers/websocket.py`)

WebSocket handles are opaque `Nat` identities.  `active_connections` is the
Python dict `user_id -> list of sockets`, `chat_viewers` the dict
`chat_id -> set of user_ids` (a set kept as an insertion-ordered duplicate-free
list). -/

structure ConnectionManager where
  active_connections : List (String × List Nat) := []
  chat_viewers : List (String × List String) := []
deriving DecidableEq

/-- `ConnectionManager.connect`: create the entry if absent, append the
socket. -/
def ConnectionManager.connect (m : ConnectionManager) (user_id : String) (ws : Nat) :
    ConnectionManager :=
  let cur := (lookupA m.active_connections user_id).getD []
  { m with active_connections := setA m.active_connections user_id (cur ++ [ws]) }

/-- `ConnectionManager.disconnect`: remove the socket from the user entry
(Python `list.remove` raises `ValueError`, the `none` case, when the socket is
not there), delete the entry when it becomes empty, then discard the user from
every chat viewer set. -/
def ConnectionManager.disconnect (m : ConnectionManager) (user_id : String) (ws : Nat) :
    Option ConnectionManager :=
  let ac :=
    match lookupA m.active_connections user_id with
    | none => some m.active_connections
    | some conns =>
        if ws ∈ conns then
          let conns := conns.erase ws
          if conns = [] then some (delA m.active_connections user_id)
          else some (setA m.active_connections user_id conns)
        else none
  ac.map (fun ac =>
    { active_connections := ac,
      chat_viewers := m.chat_viewers.map (fun e =>
        (e.1, e.2.filter (fun u => !(u == user_id)))) })

/-- `ConnectionManager.is_online`: membership of the user in the connection
dict. -/
def ConnectionManager.is_online (m : ConnectionManager) (user_id : String) : Bool :=
  (lookupA m.active_connections user_id).isSome

/-- `ConnectionManager.join_chat`. -/
def ConnectionManager.join_chat (m : ConnectionManager) (user_id chat_id : String) :
    ConnectionManager :=
  let cur := (lookupA m.chat_viewers chat_id).getD []
  let cur := if user_id ∈ cur then cur else cur ++ [user_id]
  { m with chat_viewers := setA m.chat_viewers chat_id cur }

/-- `ConnectionManager.leave_chat`. -/
def ConnectionManager.leave_chat (m : ConnectionManager) (user_id chat_id : String) :
    ConnectionManager :=
  match lookupA m.chat_viewers chat_id with
  | none => m
  | some cur =>
      let cur := cur.filter (fun u => !(u == user_id))
      { m with chat_viewers := setA m.chat_viewers chat_id cur }

/-- `ConnectionManager.send_to_user`: `dead` is the set of sockets of the user
whose `send_json` raises; they are pruned from the entry afterwards.  The
entry itself is kept even when the pruning leaves it empty. -/
def ConnectionManager.send_to_user (m : ConnectionManager) (user_id : String)
    (dead : List Nat) : ConnectionManager :=
  match lookupA m.active_connections user_id with
  | none => m
  | some conns =>
      let conns := conns.filter (fun ws => !(dead.contains ws))
      { m with active_connections := setA m.active_connections user_id conns }

/-! ### Refresh-token rotation (`app/routers/auth.py`, `refresh_token`)

JWT encoding and signature checking are abstracted away: a refresh token is
represented by the payload its successful decoding yields, and the `nonce`
field of `AuthState` supplies the fresh `jti`/token identities that
`secrets.token_hex` and the `exp` claim make unique in the source. -/

/-- A decoded refresh-token payload: the `sub` and `jti` claims
`refresh_token` reads. -/
structure RefreshPayload where
  sub : String
  jti : String
deriving DecidableEq

/-- Server-side state touched by `refresh_token`: the `revoked_refresh:` keys
in redis (their 7-day TTL is not counted down), the user table rows it reads
(`user_id` and `is_active`), and the freshness supply. -/
structure AuthState where
  revoked : List String := []
  users : List (String × Bool) := []
  nonce : Nat := 0
deriving DecidableEq

/-- The order-relevant steps `refresh_token` performs. -/
inductive AuthEvent
  | checkRevoked (jti : String) (found : Bool)
  | markRevoked (jti : String)
  | lookupUser (user_id : String)
  | issueTokens (user_id : String)
  | clearCookies
  | setCookies
deriving DecidableEq

/-- What the endpoint returned: a fresh access+refresh pair with the cookies
set, or an HTTP error, recording whether `_clear_auth_cookies` ran on the
response. -/
inductive RefreshResult
  | ok (access : String) (refresh : RefreshPayload)
  | err (status : Nat) (cookiesCleared : Bool)
deriving DecidableEq

/-- `create_access_token`: an opaque fresh token for the user (JWT signing
abstracted to the freshness index). -/
def create_access_token (user_id : String) (n : Nat) : String :=
  "access:" ++ user_id ++ ":" ++ toString n

/-- `create_refresh_token`: a fresh refresh token, carrying the `sub` claim
and a fresh `jti`. -/
def create_refresh_token (user_id : String) (n : Nat) : RefreshPayload :=
  ⟨user_id, "jti" ++ toString n⟩

/-- The `/auth/refresh` endpoint body.  `cookie` is the `refresh_token`
cookie: `none` when absent, `some none` when present but failing
`decode_refresh_token`, `some (some p)` when it decodes to payload `p`.
Returns the response, the state after the call, and the event trace in
program order. -/
def refresh_token (st : AuthState) (cookie : Option (Option RefreshPayload)) :
    RefreshResult × AuthState × List AuthEvent :=
  match cookie with
  | none => (.err 401 false, st, [])
  | some none => (.err 401 true, st, [.clearCookies])
  | some (some p) =>
      if st.revoked.contains p.jti then
        (.err 401 true, st, [.checkRevoked p.jti true, .clearCookies])
      else
        let st1 : AuthState := { st with revoked := p.jti :: st.revoked }
        match lookupA st.users p.sub with
        | none =>
            (.err 401 true, st1,
             [.checkRevoked p.jti false, .markRevoked p.jti, .lookupUser p.sub, .clearCookies])
        | some is_active =>
            if is_active then
              (.ok (create_access_token p.sub st1.nonce)
                 (create_refresh_token p.sub (st1.nonce + 1)),
               { st1 with nonce := st1.nonce + 2 },
               [.checkRevoked p.jti false, .markRevoked p.jti, .lookupUser p.sub,
                .issueTokens p.sub, .setCookies])
            else
              (.err 401 true, st1,
               [.checkRevoked p.jti false, .markRevoked p.jti, .lookupUser p.sub, .clearCookies])

/-! ### Trace predicates -/

/-- Is the event a cache lookup. -/
def isCacheRead : Eff → Bool
  | .cacheRead _ _ => true
  | _ => false

/-- Is the event a cache store. -/
def isCacheWrite : Eff → Bool
  | .cacheWrite _ _ => true
  | _ => false

/-- Is the event a call to an external (non-streaming) translation provider. -/
def isExternalTranslate : Eff → Bool
  | .callOpenAI _ _ => true
  | .callClaude _ _ => true
  | _ => false

/-- Is the event a call to the external streaming translator. -/
def isStreamTranslate : Eff → Bool
  | .callOpenAIStream _ _ => true
  | _ => false

/-- The trace contains a cache lookup. -/
def hasCacheRead (effs : List Eff) : Bool := effs.any isCacheRead

/-- The trace contains a cache store. -/
def hasCacheWrite (effs : List Eff) : Bool := effs.any isCacheWrite

/-- The trace contains an external (non-streaming) translation call. -/
def hasExternalTranslate (effs : List Eff) : Bool := effs.any isExternalTranslate

/-- The trace contains an external streaming translation call. -/
def hasStreamTranslate (effs : List Eff) : Bool := effs.any isStreamTranslate

/-- Did `refresh_token` record the old `jti` in the revocation set. -/
def isMarkRevoked : AuthEvent → Bool
  | .markRevoked _ => true
  | _ => false

/-- Did `refresh_token` create the new token pair. -/
def isIssueTokens : AuthEvent → Bool
  | .issueTokens _ => true
  | _ => false

/-- The trace contains the revocation-set write. -/
def hasMarkRevoked (tr : List AuthEvent) : Bool := tr.any isMarkRevoked

/-- The trace contains the issuance of the new pair. -/
def hasIssueTokens (tr : List AuthEvent) : Bool := tr.any isIssueTokens

/-- The issue-then-mark ordering claimed by the spec: at no program point
(prefix of the event trace) has the old `jti` been marked revoked without the
new pair already having been issued. -/
def issueThenMark (tr : List AuthEvent) : Prop :=
  ∀ i : Nat, hasMarkRevoked (tr.take i) = true → hasIssueTokens (tr.take i) = true

/-- A fixed concrete provider environment used by concrete runs. -/
def sampleEnv : ProviderEnv :=
  ⟨fun _ _ => .ok "B", fun _ _ => .ok "C", fun _ _ => .ok ["d"]⟩

/-! ### Claim theorems -/

/-- C5: for a fresh identifier with `limit = 10` and `window = 60`, eleven
successive `check_rate_limit` calls (no intervening window expiry) return:
the first allowed with remaining 9, then strictly decreasing remaining down
to 0 on the tenth, and the eleventh rejected with `allowed = false` and
`remaining = 0`. -/
theorem rate_limit_eleven_call_sequence :
    (rateLimitRun ⟨none⟩ 10 60 11).1 =
      [(true, 9), (true, 8), (true, 7), (true, 6), (true, 5), (true, 4),
       (true, 3), (true, 2), (true, 1), (true, 0), (false, 0)] := by
  decide

/-- C6: an audio chunk whose transcription is empty or whitespace-only makes
the streaming pipeline end normally right after the transcription stage: the
generator yields no items at all (no transcript, translation, audio or
metrics), the effect trace shows only the speech-to-text call (translation and
synthesis are never invoked), and the outcome is `.ok`, not an error. -/
theorem blank_transcript_short_circuits (env : ProviderEnv) (stt : Except Unit String)
    (tts : Except Unit (List String)) (context : TranslationContext)
    (voice_id : Option String) (t : String) (h1 : stt = Except.ok t)
    (h2 : pyStrip t = "") :
    process_audio_streaming env stt tts context voice_id = (Except.ok [], [Eff.sttCall]) := by
  subst h1
  simp only [process_audio_streaming, h2, if_pos]

/-- Witness for C6 at the whitespace-only transcription `"  "`. -/
theorem blank_transcript_short_circuits_witness :
    pyStrip "  " = "" ∧
    process_audio_streaming sampleEnv (Except.ok "  ") (Except.ok ["X"]) {} none =
      (Except.ok [], [Eff.sttCall]) :=
  ⟨by decide,
   blank_transcript_short_circuits sampleEnv (Except.ok "  ") (Except.ok ["X"]) {} none "  "
     rfl (by decide)⟩

/-- C10: when the source language equals the target language, `translate`
returns the input text unchanged, calls no external provider, and neither
reads nor writes the translation cache (the redis state is returned
untouched and the effect trace is empty). -/
theorem translate_same_language_identity (env : ProviderEnv) (redis : Option RedisState)
    (text lang persona industry : String) (glossary : List (String × String))
    (use_claude : Bool) :
    TranslationService.translate env redis text lang lang persona industry glossary use_claude =
      (Except.ok text, redis, []) := by
  unfold TranslationService.translate
  rw [if_pos rfl]

/-- C1 (code bug exhibit): redeeming the same `jti` twice.  The first
redemption succeeds and returns a new access+refresh pair; the second is
rejected with 401 and `_clear_auth_cookies` on the response — but the server
state after the second call is unchanged: no user-scoped revocation happens,
and in particular the new refresh token issued by the first redemption (the
live member of the very same token family) still redeems successfully after
the theft was detected, contradicting full revocation of the token family. -/
theorem refresh_reuse_no_family_revocation :
    refresh_token ⟨[], [("u1", true)], 0⟩ (some (some ⟨"u1", "a"⟩)) =
      (.ok "access:u1:0" ⟨"u1", "jti1"⟩, ⟨["a"], [("u1", true)], 2⟩,
       [.checkRevoked "a" false, .markRevoked "a", .lookupUser "u1",
        .issueTokens "u1", .setCookies]) ∧
    refresh_token ⟨["a"], [("u1", true)], 2⟩ (some (some ⟨"u1", "a"⟩)) =
      (.err 401 true, ⟨["a"], [("u1", true)], 2⟩,
       [.checkRevoked "a" true, .clearCookies]) ∧
    (refresh_token ⟨["a"], [("u1", true)], 2⟩ (some (some ⟨"u1", "jti1"⟩))).1 =
      .ok "access:u1:2" ⟨"u1", "jti3"⟩ := by
  decide

/-- C7 (code bug exhibit): disconnecting the last handle does behave as
claimed (the entry is deleted and the user leaves every chat viewer set), but
the registry also reaches states violating the online-iff-a-live-handle
invariant: after `send_to_user` prunes the only (dead) socket of a user, the
entry is kept as an empty list, so `is_online` still reports `true` although
the user holds no handle at all. -/
theorem registry_online_without_handles :
    ConnectionManager.disconnect
        (ConnectionManager.join_chat (ConnectionManager.connect {} "u1" 1) "u1" "c1")
        "u1" 1 =
      some { active_connections := [], chat_viewers := [("c1", [])] } ∧
    ConnectionManager.is_online
        (ConnectionManager.send_to_user (ConnectionManager.connect {} "u1" 1) "u1" [1])
        "u1" = true ∧
    lookupA (ConnectionManager.send_to_user
        (ConnectionManager.connect {} "u1" 1) "u1" [1]).active_connections "u1" =
      some [] := by
  decide

/-- C8: after storing a translation for `t`, a lookup with any `t2` whose
trim-and-lowercase normalization equals that of `t` (on the same language
pair, before TTL expiry — no time passes in the model) returns the stored
value: the key derivation hashes `text.strip().lower()`, so all such texts
address the same entry. -/
theorem cache_store_lookup_normalized (st : RedisState) (t t2 src tgt x : String)
    (h : pyLower (pyStrip t2) = pyLower (pyStrip t)) :
    get_translation (set_translation st t src tgt x 86400) t2 src tgt = some x := by
  have hk : translation_key src tgt t2 = translation_key src tgt t := by
    unfold translation_key
    rw [h]
  unfold get_translation set_translation redisSetex redisGet
  rw [hk]
  simp [List.find?]

/-- Witness for C8: `"Hello "` and `"hello"` address the same entry, and the
lookup right after the store returns the stored value. -/
theorem cache_store_lookup_normalized_witness :
    pyLower (pyStrip "hello") = pyLower (pyStrip "Hello ") ∧
    get_translation (set_translation {} "Hello " "en" "th" "x" 86400) "hello" "en" "th" =
      some "x" :=
  ⟨by decide, cache_store_lookup_normalized {} "Hello " "hello" "en" "th" "x" (by decide)⟩

/-- C9: for a request subject to rate limiting (an `/api` path), when the
backing store is unavailable (every redis operation raises), the middleware
fails open: `call_next` runs, the request proceeds with no rate-limit
headers, and no error is propagated to the caller. -/
theorem rate_limit_fails_open (req : MwRequest) (h : pyStartswith req.path "/api" = true) :
    dispatch req .down = (.next none, .down) := by
  unfold dispatch
  split
  · rfl
  · split
    · rfl
    · rfl

/-- Witness for C9 at a login request. -/
theorem rate_limit_fails_open_witness :
    pyStartswith "/api/auth/login" "/api" = true ∧
    dispatch ⟨"/api/auth/login", "", none⟩ .down = (.next none, .down) :=
  ⟨by decide, rate_limit_fails_open ⟨"/api/auth/login", "", none⟩ (by decide)⟩

/-- C2 as stated by the spec: in the streaming pipeline a context with no
persona, industry or glossary makes the translation stage attempt a cache
lookup before any external-translator call (so in particular a cache read
appears in the effect trace of every such non-silent run). -/
def streamingCacheLookupClaim : Prop :=
  ∀ (env : ProviderEnv) (stt : Except Unit String) (tts : Except Unit (List String))
    (context : TranslationContext) (voice_id : Option String) (t : String),
    stt = Except.ok t → pyStrip t ≠ "" →
    context.persona = "" → context.industry = "" → context.custom_glossary = [] →
    hasCacheRead (process_audio_streaming env stt tts context voice_id).2 = true

/-- C2 counterexample: a concrete run with an empty context (no persona, no
industry, no glossary) whose effect trace contains no cache read at all — the
streaming translation stage goes straight to the external translator. -/
theorem streaming_cache_lookup_refuted : ¬ streamingCacheLookupClaim := by
  intro h
  have hc := h sampleEnv (Except.ok "hello") (Except.ok ["X"]) {} none "hello" rfl
    (by decide) rfl rfl rfl
  exact absurd hc (by decide)

/-- C2 amended: in the streaming pipeline the translation stage performs no
cache lookup (and no cache write): for every non-blank transcript the
external streaming translator is invoked, whatever the context carries; the
cache-hit short cut exists only in the non-streaming `translate`. -/
theorem streaming_translate_never_consults_cache (env : ProviderEnv)
    (stt : Except Unit String) (tts : Except Unit (List String))
    (context : TranslationContext) (voice_id : Option String) (t : String)
    (h1 : stt = Except.ok t) (h2 : pyStrip t ≠ "") :
    hasCacheRead (process_audio_streaming env stt tts context voice_id).2 = false ∧
    hasCacheWrite (process_audio_streaming env stt tts context voice_id).2 = false ∧
    hasStreamTranslate (process_audio_streaming env stt tts context voice_id).2 = true := by
  subst h1
  simp only [process_audio_streaming, translate_stream, if_neg h2]
  rcases env.openaiStream (build_system_prompt context.source_language
      context.target_language context.persona context.industry context.custom_glossary) t
    with e | ds
  · simp [hasCacheRead, hasCacheWrite, hasStreamTranslate, isCacheRead, isCacheWrite,
      isStreamTranslate, Except.map]
  · rcases tts with e | cs <;>
      simp [hasCacheRead, hasCacheWrite, hasStreamTranslate, isCacheRead, isCacheWrite,
        isStreamTranslate, Except.map]

/-- Witness for the amended C2 at a concrete non-silent run with an empty
context. -/
theorem streaming_translate_never_consults_cache_witness :
    pyStrip "hello" ≠ "" ∧
    (hasCacheRead (process_audio_streaming sampleEnv (Except.ok "hello")
        (Except.ok ["X"]) {} none).2 = false ∧
     hasCacheWrite (process_audio_streaming sampleEnv (Except.ok "hello")
        (Except.ok ["X"]) {} none).2 = false ∧
     hasStreamTranslate (process_audio_streaming sampleEnv (Except.ok "hello")
        (Except.ok ["X"]) {} none).2 = true) :=
  ⟨by decide,
   streaming_translate_never_consults_cache sampleEnv (Except.ok "hello") (Except.ok ["X"])
     {} none "hello" rfl (by decide)⟩

/-- C3 as stated by the spec: every run of the refresh endpoint obeys the
issue-then-mark ordering — there is no program point at which the old `jti`
is already recorded in the revocation set while the new pair has not yet been
created. -/
def refreshIssueThenMarkClaim : Prop :=
  ∀ (st : AuthState) (cookie : Option (Option RefreshPayload)),
    issueThenMark (refresh_token st cookie).2.2

/-- C3 counterexample: in a concrete successful refresh the prefix of the
trace after two steps already contains the revocation-set write but not yet
the token issuance, so the issue-then-mark ordering does not hold. -/
theorem refresh_issue_then_mark_refuted : ¬ refreshIssueThenMarkClaim := by
  intro h
  have h2 := h ⟨[], [("u1", true)], 0⟩ (some (some ⟨"u1", "a"⟩)) 2 (by decide)
  exact absurd h2 (by decide)

/-- C3 amended: the refresh endpoint orders the two steps the other way round
(mark-then-issue): in every successful refresh there is an intermediate
program point — right after the revocation-set write, before the user lookup —
at which the old `jti` is already marked revoked but the new pair has not yet
been created. -/
theorem refresh_marks_before_issuing (st : AuthState)
    (cookie : Option (Option RefreshPayload)) (a : String) (r : RefreshPayload)
    (stf : AuthState) (tr : List AuthEvent)
    (h : refresh_token st cookie = (.ok a r, stf, tr)) :
    ∃ i, hasMarkRevoked (tr.take i) = true ∧ hasIssueTokens (tr.take i) = false := by
  rcases cookie with _ | (_ | p)
  · simp [refresh_token] at h
  · simp [refresh_token] at h
  · simp only [refresh_token] at h
    split at h
    · simp at h
    · split at h
      · simp at h
      · split at h
        · simp only [Prod.mk.injEq] at h
          obtain ⟨-, -, htr⟩ := h
          subst htr
          exact ⟨2, rfl, rfl⟩
        · simp at h

/-- Witness for the amended C3 at a concrete successful refresh. -/
theorem refresh_marks_before_issuing_witness :
    refresh_token ⟨[], [("u2", true)], 0⟩ (some (some ⟨"u2", "b"⟩)) =
      (.ok "access:u2:0" ⟨"u2", "jti1"⟩, ⟨["b"], [("u2", true)], 2⟩,
       [.checkRevoked "b" false, .markRevoked "b", .lookupUser "u2",
        .issueTokens "u2", .setCookies]) ∧
    (∃ i, hasMarkRevoked (List.take i
        [AuthEvent.checkRevoked "b" false, .markRevoked "b", .lookupUser "u2",
         .issueTokens "u2", .setCookies]) = true ∧
      hasIssueTokens (List.take i
        [AuthEvent.checkRevoked "b" false, .markRevoked "b", .lookupUser "u2",
         .issueTokens "u2", .setCookies]) = false) :=
  ⟨by decide,
   refresh_marks_before_issuing ⟨[], [("u2", true)], 0⟩ (some (some ⟨"u2", "b"⟩))
     "access:u2:0" ⟨"u2", "jti1"⟩ ⟨["b"], [("u2", true)], 2⟩ _ (by decide)⟩

/-- `cacheReadPhase` without `use_cache` touches nothing. -/
theorem cacheReadPhase_false (redis : Option RedisState) (text src tgt : String) :
    cacheReadPhase false redis text src tgt = (none, redis, []) := rfl

/-- `storePhase` without `use_cache` stores nothing. -/
theorem storePhase_false (redis : Option RedisState) (text src tgt result : String)
    (effs : List Eff) :
    storePhase false redis text src tgt result effs = (.ok result, redis, effs) := rfl

/-- The provider phase performs no cache access and always records at least
one external translation call. -/
theorem providerPhase_trace (env : ProviderEnv) (system_prompt text : String)
    (use_claude : Bool) :
    hasCacheRead (providerPhase env system_prompt text use_claude).2 = false ∧
    hasCacheWrite (providerPhase env system_prompt text use_claude).2 = false ∧
    hasExternalTranslate (providerPhase env system_prompt text use_claude).2 = true := by
  unfold providerPhase
  cases use_claude
  · rcases env.openai system_prompt text with e | s
    · rcases env.claude system_prompt text with e2 | s2 <;>
        simp [hasCacheRead, hasCacheWrite, hasExternalTranslate, isCacheRead, isCacheWrite,
          isExternalTranslate]
    · simp [hasCacheRead, hasCacheWrite, hasExternalTranslate, isCacheRead, isCacheWrite,
        isExternalTranslate]
  · rcases env.claude system_prompt text with e | s <;>
      simp [hasCacheRead, hasCacheWrite, hasExternalTranslate, isCacheRead, isCacheWrite,
        isExternalTranslate]

/-- C4 as stated by the spec: a call to `translate` with a non-empty persona,
industry or glossary neither reads nor writes the shared cache, and the
external translator is always invoked. -/
def contextualTranslateClaim : Prop :=
  ∀ (env : ProviderEnv) (redis : Option RedisState)
    (text src tgt persona industry : String) (glossary : List (String × String))
    (use_claude : Bool),
    (persona ≠ "" ∨ industry ≠ "" ∨ glossary ≠ []) →
    hasCacheRead (TranslationService.translate env redis text src tgt persona industry
      glossary use_claude).2.2 = false ∧
    hasCacheWrite (TranslationService.translate env redis text src tgt persona industry
      glossary use_claude).2.2 = false ∧
    hasExternalTranslate (TranslationService.translate env redis text src tgt persona industry
      glossary use_claude).2.2 = true

/-- C4 counterexample: a contextualized call with equal source and target
language returns early, so no external translator is invoked at all — the
always-invoked part of the claim fails at this input (the cache parts hold). -/
theorem contextual_translate_claim_refuted : ¬ contextualTranslateClaim := by
  intro h
  have hc := (h sampleEnv (some {}) "hi" "en" "en" "p" "" [] false
    (Or.inl (by decide))).2.2
  exact absurd hc (by decide)

/-- C4 amended: a call to `translate` with a non-empty persona, industry or
glossary neither reads nor writes the shared cache and leaves the redis state
untouched; the external translator is always invoked except when source and
target language are equal (where the input is returned unchanged with no
provider call). -/
theorem contextual_translate_bypasses_cache (env : ProviderEnv)
    (redis : Option RedisState) (text src tgt persona industry : String)
    (glossary : List (String × String)) (use_claude : Bool)
    (h : persona ≠ "" ∨ industry ≠ "" ∨ glossary ≠ []) :
    hasCacheRead (TranslationService.translate env redis text src tgt persona industry
      glossary use_claude).2.2 = false ∧
    hasCacheWrite (TranslationService.translate env redis text src tgt persona industry
      glossary use_claude).2.2 = false ∧
    (TranslationService.translate env redis text src tgt persona industry
      glossary use_claude).2.1 = redis ∧
    (src ≠ tgt → hasExternalTranslate (TranslationService.translate env redis text src tgt
      persona industry glossary use_claude).2.2 = true) := by
  have hc : ((persona == "") && ((industry == "") && glossary.isEmpty)) = false := by
    rcases h with h | h | h <;>
      simp [h, List.isEmpty_iff]
  unfold TranslationService.translate
  by_cases hst : src = tgt
  · rw [if_pos hst]
    exact ⟨rfl, rfl, rfl, fun hn => absurd hst hn⟩
  · rw [if_neg hst, hc, cacheReadPhase_false]
    have htr := providerPhase_trace env (build_system_prompt src tgt persona industry glossary)
      text use_claude
    rcases hp : providerPhase env (build_system_prompt src tgt persona industry glossary)
      text use_claude with ⟨res, e2⟩
    rw [hp] at htr
    rcases res with e | result
    · refine ⟨?_, ?_, ?_, fun _ => ?_⟩ <;>
        simp [htr.1, htr.2.1, htr.2.2]
    · refine ⟨?_, ?_, ?_, fun _ => ?_⟩ <;>
        simp [storePhase_false, htr.1, htr.2.1, htr.2.2]

/-- Witness for the amended C4 at a contextualized call with distinct
languages. -/
theorem contextual_translate_bypasses_cache_witness :
    ("p" ≠ "" ∨ ("" : String) ≠ "" ∨ ([] : List (String × String)) ≠ []) ∧
    (hasCacheRead (TranslationService.translate sampleEnv (some {}) "hi" "en" "th" "p" ""
      [] false).2.2 = false ∧
     hasCacheWrite (TranslationService.translate sampleEnv (some {}) "hi" "en" "th" "p" ""
      [] false).2.2 = false ∧
     (TranslationService.translate sampleEnv (some {}) "hi" "en" "th" "p" ""
      [] false).2.1 = some {} ∧
     (("en" : String) ≠ "th" → hasExternalTranslate (TranslationService.translate sampleEnv
      (some {}) "hi" "en" "th" "p" "" [] false).2.2 = true)) :=
  ⟨Or.inl (by decide),
   contextual_translate_bypasses_cache sampleEnv (some {}) "hi" "en" "th" "p" "" [] false
     (Or.inl (by decide))⟩
